import Mathlib

/-!
Verification of the kj-orbital simulation engine.

This file embeds the three numerical models of the repository in Lean 4
over the real numbers and proves (or refutes) the testable properties of
the specification.

  * `Azimuth`  — src/sim/azimuth.js   (launch azimuth geometry)
  * `Echoi`    — src/sim/echoi.js     (Echo I orbital propagator)
  * `Reentry`  — src/unnamed/part_001 (reentry integrator)

JavaScript `Number` arithmetic is modelled by real arithmetic.  The one
place where IEEE semantics of division by zero is observable on the input
domain of a claim (the feasibility guard of `computeLaunchAzimuth` at
latitude ±90°, where `Math.cos` of the rounded π/2 is a tiny positive
float, so the quotient overflows the guard) is modelled explicitly; see
`Azimuth.azInfeasible`.  `Real.sqrt` of a negative number is `0` where
JavaScript yields `NaN`; every theorem below that touches such inputs
only uses that both make the affected ordering claims false.
-/

open Real

open Classical

namespace Azimuth

/-- Physical constant `EARTH_ROT_RATE = 0.25068` (deg/min) from azimuth.js. -/
def EARTH_ROT_RATE : ℝ := 0.25068

/-- Embedding of `degToRad(degrees) = degrees * Math.PI / 180`. -/
noncomputable def degToRad (degrees : ℝ) : ℝ := degrees * π / 180

/-- Embedding of `radToDeg(radians) = radians * 180 / Math.PI`. -/
noncomputable def radToDeg (radians : ℝ) : ℝ := radians * 180 / π

/-- The single error the azimuth module can raise: the `throw new Error
("Target inclination cannot be achieved from this latitude.")` of
`computeLaunchAzimuth`. -/
inductive AzimuthError where
  | infeasible
deriving DecidableEq

/-- The guard `Math.abs(cosPsi) > 1` of `computeLaunchAzimuth`, where
`cosPsi = Math.cos(inclination) / Math.cos(phi)`, with IEEE division
semantics made explicit: when `cos phi = 0` the JavaScript quotient is
`±Infinity` (guard trips) unless the numerator is also `0`, in which case
it is `NaN` and the `>` comparison is false (guard does not trip). -/
def azInfeasible (phi inclination : ℝ) : Prop :=
  (Real.cos phi ≠ 0 ∧ 1 < |Real.cos inclination / Real.cos phi|) ∨
  (Real.cos phi = 0 ∧ Real.cos inclination ≠ 0)

/-- Embedding of `computeLaunchAzimuth(latitudeDeg, inclinationDeg)`:
converts both inputs to radians, forms `cosPsi = cos(i)/cos(phi)`, throws
the domain error when `|cosPsi| > 1`, otherwise returns
`radToDeg(acos(cosPsi))`. -/
noncomputable def computeLaunchAzimuth (latitudeDeg inclinationDeg : ℝ) :
    Except AzimuthError ℝ :=
  if azInfeasible (degToRad latitudeDeg) (degToRad inclinationDeg) then
    .error .infeasible
  else
    .ok (radToDeg (Real.arccos
      (Real.cos (degToRad inclinationDeg) / Real.cos (degToRad latitudeDeg))))

/-- Embedding of `isInclinationReachable(latitudeDeg, inclinationDeg) =
Math.abs(inclinationDeg) >= Math.abs(latitudeDeg)` (a JavaScript boolean). -/
noncomputable def isInclinationReachable (latitudeDeg inclinationDeg : ℝ) : Bool :=
  decide (|inclinationDeg| ≥ |latitudeDeg|)

/-- Embedding of `computeEarthRotationLongitude(timeMin) = EARTH_ROT_RATE * timeMin`. -/
def computeEarthRotationLongitude (timeMin : ℝ) : ℝ := EARTH_ROT_RATE * timeMin

/-- The record returned by `runAzimuthSimulation`. -/
structure AzimuthResult where
  azimuthDeg : ℝ
  longitudeShiftDeg : ℝ
  feasible : Bool

/-- Embedding of `runAzimuthSimulation({latitudeDeg, inclinationDeg,
timeSinceEpochMin = 0})`.  The source calls `computeLaunchAzimuth` first,
unconditionally; a thrown domain error therefore propagates to the caller
(modelled by the `.error` branch) before `feasible` is ever computed. -/
noncomputable def runAzimuthSimulation
    (latitudeDeg inclinationDeg timeSinceEpochMin : ℝ) :
    Except AzimuthError AzimuthResult :=
  match computeLaunchAzimuth latitudeDeg inclinationDeg with
  | .error e => .error e
  | .ok azimuthDeg =>
      .ok ⟨azimuthDeg,
           computeEarthRotationLongitude timeSinceEpochMin,
           isInclinationReachable latitudeDeg inclinationDeg⟩

/- ===== helper lemmas about the azimuth geometry ===== -/

lemma degToRad_nonneg_le_half_pi {d : ℝ} (h0 : 0 ≤ d) (h : d ≤ 90) :
    degToRad d ∈ Set.Icc 0 (π / 2) := by
  unfold degToRad
  constructor
  · positivity
  · rw [div_le_div_iff₀ (by norm_num) (by norm_num : (0:ℝ) < 2)]
    nlinarith [pi_pos]

lemma degToRad_lt_half_pi {d : ℝ} (h : d < 90) : degToRad d < π / 2 := by
  unfold degToRad
  rw [div_lt_div_iff₀ (by norm_num) (by norm_num : (0:ℝ) < 2)]
  nlinarith [pi_pos]

lemma degToRad_ninety : degToRad 90 = π / 2 := by
  unfold degToRad; ring

lemma cos_degToRad_pos {d : ℝ} (h0 : 0 ≤ d) (h : d < 90) :
    0 < Real.cos (degToRad d) := by
  apply Real.cos_pos_of_mem_Ioo
  constructor
  · have : (0:ℝ) ≤ degToRad d := by unfold degToRad; positivity
    have := pi_pos
    linarith
  · exact degToRad_lt_half_pi h

lemma cos_degToRad_abs (d : ℝ) : Real.cos (degToRad d) = Real.cos (degToRad |d|) := by
  unfold degToRad
  rcases abs_choice d with h | h
  · rw [h]
  · rw [h]; rw [show -d * π / 180 = -(d * π / 180) by ring, Real.cos_neg]

lemma degToRad_strictMono {a b : ℝ} (h : a < b) : degToRad a < degToRad b := by
  unfold degToRad
  have := pi_pos
  rw [div_lt_div_iff₀ (by norm_num) (by norm_num)]
  nlinarith

/-- Core feasibility dichotomy: for `|lat| ≤ 90` and `|inc| ≤ 90` the guard
of `computeLaunchAzimuth` trips exactly when `|inc| < |lat|`. -/
lemma azInfeasible_iff {lat inc : ℝ} (hlat : |lat| ≤ 90) (hinc : |inc| ≤ 90) :
    azInfeasible (degToRad lat) (degToRad inc) ↔ |inc| < |lat| := by
  have habsl : (0:ℝ) ≤ |lat| := abs_nonneg lat
  have habsi : (0:ℝ) ≤ |inc| := abs_nonneg inc
  have hcl : Real.cos (degToRad lat) = Real.cos (degToRad |lat|) := cos_degToRad_abs lat
  have hci : Real.cos (degToRad inc) = Real.cos (degToRad |inc|) := cos_degToRad_abs inc
  have hmemL := degToRad_nonneg_le_half_pi habsl hlat
  have hmemI := degToRad_nonneg_le_half_pi habsi hinc
  have hpi := pi_pos
  have hIcc : ∀ x : ℝ, x ∈ Set.Icc 0 (π/2) → x ∈ Set.Icc 0 π := by
    intro x hx; exact ⟨hx.1, by linarith [hx.2]⟩
  rcases lt_or_eq_of_le hlat with hl90 | hl90
  · -- |lat| < 90: the cosine of the latitude is positive
    have hclpos : 0 < Real.cos (degToRad |lat|) := cos_degToRad_pos habsl hl90
    have hcinn : 0 ≤ Real.cos (degToRad |inc|) :=
      Real.cos_nonneg_of_mem_Icc ⟨by linarith [hmemI.1], hmemI.2⟩
    constructor
    · rintro (⟨_, hgt⟩ | ⟨hz, _⟩)
      · rw [hci, hcl, abs_div, abs_of_nonneg hcinn, abs_of_pos hclpos,
          lt_div_iff₀ hclpos, one_mul] at hgt
        have := (Real.strictAntiOn_cos.lt_iff_lt (hIcc _ hmemL) (hIcc _ hmemI)).mp hgt
        by_contra hcon
        push_neg at hcon
        rcases eq_or_lt_of_le hcon with he | hlt
        · rw [he] at this; exact lt_irrefl _ this
        · exact absurd this (not_lt.mpr (le_of_lt (degToRad_strictMono hlt)))
      · rw [hcl] at hz
        exact absurd hz (ne_of_gt hclpos)
    · intro hlt
      left
      refine ⟨by rw [hcl]; exact ne_of_gt hclpos, ?_⟩
      have hstep : Real.cos (degToRad |lat|) < Real.cos (degToRad |inc|) :=
        (Real.strictAntiOn_cos.lt_iff_lt (hIcc _ hmemL) (hIcc _ hmemI)).mpr
          (degToRad_strictMono hlt)
      rw [hci, hcl, abs_div, abs_of_nonneg hcinn, abs_of_pos hclpos,
        lt_div_iff₀ hclpos, one_mul]
      exact hstep
  · -- |lat| = 90: the cosine of the latitude is exactly zero
    have hz : Real.cos (degToRad |lat|) = 0 := by
      rw [hl90, degToRad_ninety, Real.cos_pi_div_two]
    constructor
    · rintro (⟨hnz, _⟩ | ⟨_, hnz⟩)
      · rw [hcl] at hnz; exact absurd hz hnz
      · rw [hci] at hnz
        by_contra hcon
        push_neg at hcon
        have : |inc| = 90 := le_antisymm hinc (by rw [hl90] at hcon; exact hcon)
        rw [this, degToRad_ninety, Real.cos_pi_div_two] at hnz
        exact hnz rfl
    · intro hlt
      right
      refine ⟨by rw [hcl]; exact hz, ?_⟩
      rw [hci]
      have : |inc| < 90 := by rw [← hl90]; exact hlt
      exact ne_of_gt (cos_degToRad_pos habsi this)

lemma azInfeasible_30_28 : azInfeasible (degToRad 30) (degToRad 28) := by
  have h : |(28:ℝ)| < |(30:ℝ)| := by
    rw [abs_of_nonneg (by norm_num : (0:ℝ) ≤ 28), abs_of_nonneg (by norm_num : (0:ℝ) ≤ 30)]
    norm_num
  exact (azInfeasible_iff (by rw [abs_of_nonneg] <;> norm_num)
    (by rw [abs_of_nonneg] <;> norm_num)).mpr h

lemma computeLaunchAzimuth_30_28 :
    computeLaunchAzimuth 30 28 = .error .infeasible := by
  unfold computeLaunchAzimuth
  rw [if_pos azInfeasible_30_28]

end Azimuth

/- ===================== Claims about the azimuth module ===================== -/

/-- C8: `computeLaunchAzimuth(0, 90)` returns exactly 90°,
`computeLaunchAzimuth(28.5, 28.5)` returns exactly 0°, and
`computeLaunchAzimuth(30, 28)` raises the domain error. -/
theorem computeLaunchAzimuth_concrete_values :
    Azimuth.computeLaunchAzimuth 0 90 = .ok 90 ∧
    Azimuth.computeLaunchAzimuth 28.5 28.5 = .ok 0 ∧
    Azimuth.computeLaunchAzimuth 30 28 = .error .infeasible := by
  refine ⟨?_, ?_, Azimuth.computeLaunchAzimuth_30_28⟩
  · unfold Azimuth.computeLaunchAzimuth
    have h0 : Azimuth.degToRad 0 = 0 := by unfold Azimuth.degToRad; ring
    have hcos0 : Real.cos (Azimuth.degToRad 0) = 1 := by rw [h0, Real.cos_zero]
    have hcos90 : Real.cos (Azimuth.degToRad 90) = 0 := by
      rw [Azimuth.degToRad_ninety, Real.cos_pi_div_two]
    rw [if_neg]
    · rw [hcos90, hcos0, zero_div, Real.arccos_zero]
      congr 1
      unfold Azimuth.radToDeg
      field_simp
      ring
    · unfold Azimuth.azInfeasible
      push_neg
      constructor
      · intro _
        rw [hcos90, hcos0, zero_div, abs_zero]
        norm_num
      · intro h; rw [hcos0] at h; norm_num at h
  · unfold Azimuth.computeLaunchAzimuth
    have hpos : 0 < Real.cos (Azimuth.degToRad 28.5) :=
      Azimuth.cos_degToRad_pos (by norm_num) (by norm_num)
    have hself : Real.cos (Azimuth.degToRad 28.5) / Real.cos (Azimuth.degToRad 28.5) = 1 :=
      div_self (ne_of_gt hpos)
    rw [if_neg]
    · rw [hself, Real.arccos_one]
      congr 1
      unfold Azimuth.radToDeg
      ring
    · unfold Azimuth.azInfeasible
      push_neg
      constructor
      · intro _
        rw [hself, abs_one]
      · intro h; exact absurd h (ne_of_gt hpos)

/-- C3: for all `|lat| ≤ 90` and `|inc| ≤ 90`, `isInclinationReachable`
returns `false` exactly when `computeLaunchAzimuth` raises the domain
error. -/
theorem isInclinationReachable_false_iff_error (lat inc : ℝ)
    (hlat : |lat| ≤ 90) (hinc : |inc| ≤ 90) :
    Azimuth.isInclinationReachable lat inc = false ↔
      Azimuth.computeLaunchAzimuth lat inc = .error .infeasible := by
  unfold Azimuth.isInclinationReachable Azimuth.computeLaunchAzimuth
  constructor
  · intro h
    rw [decide_eq_false_iff_not, not_le] at h
    rw [if_pos ((Azimuth.azInfeasible_iff hlat hinc).mpr h)]
  · intro h
    by_cases hc : Azimuth.azInfeasible (Azimuth.degToRad lat) (Azimuth.degToRad inc)
    · rw [decide_eq_false_iff_not, not_le]
      exact (Azimuth.azInfeasible_iff hlat hinc).mp hc
    · rw [if_neg hc] at h
      exact absurd h (by simp)

/-- Witness for C3 at the concrete infeasible input `(30, 28)`. -/
theorem isInclinationReachable_false_iff_error_witness :
    Azimuth.isInclinationReachable 30 28 = false ↔
      Azimuth.computeLaunchAzimuth 30 28 = .error .infeasible :=
  isInclinationReachable_false_iff_error 30 28
    (by rw [abs_of_nonneg] <;> norm_num) (by rw [abs_of_nonneg] <;> norm_num)

/-- C1 (code bug): at the infeasible input `(lat, inc) = (30, 28)`,
`runAzimuthSimulation` does NOT return a record with `feasible = false` —
it calls `computeLaunchAzimuth` unconditionally and the domain error
propagates to the caller.  The specification requires the feasibility
check to run first and the failure to be reported as data. -/
theorem runAzimuthSimulation_infeasible_propagates :
    Azimuth.runAzimuthSimulation 30 28 0 = .error .infeasible := by
  unfold Azimuth.runAzimuthSimulation
  rw [Azimuth.computeLaunchAzimuth_30_28]

namespace Reentry

/-- Physical constant `EARTH_RADIUS = 6371000` (m) from the reentry module. -/
def EARTH_RADIUS : ℝ := 6371000

/-- Physical constant `MU = 3.986004418e14` (m³/s²) from the reentry module. -/
def MU : ℝ := 3.986004418e14

/-- Physical constant `G0 = 9.80665` (m/s²) from the reentry module. -/
def G0 : ℝ := 9.80665

/-- Physical constant `RHO_0 = 1.225` (kg/m³, sea-level density) from the
reentry module. -/
def RHO_0 : ℝ := 1.225

/-- Physical constant `H_SCALE = 7200` (m, scale height) from the reentry
module. -/
def H_SCALE : ℝ := 7200

/-- Embedding of the reentry module's `atmosphericDensity(altitude) =
RHO_0 * Math.exp(-altitude / H_SCALE)`. -/
noncomputable def atmosphericDensity (altitude : ℝ) : ℝ :=
  RHO_0 * Real.exp (-altitude / H_SCALE)

/-- Embedding of `dragForce(rho, velocity, Cd, area) =
0.5 * rho * velocity * velocity * Cd * area`. -/
def dragForce (rho velocity Cd area : ℝ) : ℝ :=
  0.5 * rho * velocity * velocity * Cd * area

/-- Embedding of `liftForce(rho, velocity, Cl, area) =
0.5 * rho * velocity * velocity * Cl * area`. -/
def liftForce (rho velocity Cl area : ℝ) : ℝ :=
  0.5 * rho * velocity * velocity * Cl * area

/-- Embedding of `gravity(altitude) = MU / (r * r)` with
`r = EARTH_RADIUS + altitude`. -/
noncomputable def gravity (altitude : ℝ) : ℝ :=
  MU / ((EARTH_RADIUS + altitude) * (EARTH_RADIUS + altitude))

/-- Embedding of `flightPathAngleRate({lift, mass, velocity, altitude,
gamma, bankAngle = 0})`:
`(lift / (mass * velocity)) * cos(bankAngle) + (velocity / r - g / velocity) * cos(gamma)`. -/
noncomputable def flightPathAngleRate
    (lift mass velocity altitude gamma bankAngle : ℝ) : ℝ :=
  lift / (mass * velocity) * Real.cos bankAngle +
    (velocity / (EARTH_RADIUS + altitude) - gravity altitude / velocity) *
      Real.cos gamma

/-- Embedding of `approximateFlightPathAngle({gamma0, drag, mass, velocity,
deltaTime}) = gamma0 - (drag / (mass * velocity)) * deltaTime`. -/
noncomputable def approximateFlightPathAngle (gamma0 drag mass velocity deltaTime : ℝ) : ℝ :=
  gamma0 - drag / (mass * velocity) * deltaTime

/-- Embedding of `ballisticCoefficient(mass, Cd, area) = mass / (Cd * area)`. -/
noncomputable def ballisticCoefficient (mass Cd area : ℝ) : ℝ := mass / (Cd * area)

/-- Embedding of `deceleration(drag, mass) = drag / mass`. -/
noncomputable def deceleration (drag mass : ℝ) : ℝ := drag / mass

/-- The reentry state record `{gamma, velocity, altitude}`. -/
structure ReentryState where
  gamma : ℝ
  velocity : ℝ
  altitude : ℝ

/-- The vehicle record `{Cd, Cl, area, mass, bankAngle}` used by
`reentryStep`. -/
structure Vehicle where
  Cd : ℝ
  Cl : ℝ
  area : ℝ
  mass : ℝ
  bankAngle : ℝ

/-- Embedding of `reentryStep(state, vehicle, dt)`: computes the density at
the current altitude, the drag and lift forces, the flight-path-angle rate,
and returns the advanced state.  The altitude update reads
`state.velocity` and `state.gamma`, i.e. the pre-update values. -/
noncomputable def reentryStep (state : ReentryState) (vehicle : Vehicle)
    (dt : ℝ) : ReentryState :=
  let rho := atmosphericDensity state.altitude
  let drag := dragForce rho state.velocity vehicle.Cd vehicle.area
  let lift := liftForce rho state.velocity vehicle.Cl vehicle.area
  let gammaDot := flightPathAngleRate lift vehicle.mass state.velocity
    state.altitude state.gamma vehicle.bankAngle
  { gamma := state.gamma + gammaDot * dt,
    velocity := state.velocity - drag / vehicle.mass * dt,
    altitude := state.altitude + state.velocity * Real.sin state.gamma * dt }

/-- Every divisor of every division evaluated during `reentryStep`,
transcribed from the source in evaluation order: `H_SCALE` in
`atmosphericDensity`; `mass * velocity`, `r = EARTH_RADIUS + altitude` and
`velocity` in `flightPathAngleRate`; `r * r` in `gravity`; `mass` in the
velocity update of `reentryStep`. -/
lemma reentryStep_gamma_eq (state : ReentryState) (vehicle : Vehicle) (dt : ℝ) :
    (reentryStep state vehicle dt).gamma =
      state.gamma + flightPathAngleRate
        (liftForce (atmosphericDensity state.altitude) state.velocity
          vehicle.Cl vehicle.area)
        vehicle.mass state.velocity state.altitude state.gamma
        vehicle.bankAngle * dt := rfl

lemma reentryStep_velocity_eq (state : ReentryState) (vehicle : Vehicle) (dt : ℝ) :
    (reentryStep state vehicle dt).velocity =
      state.velocity - dragForce (atmosphericDensity state.altitude)
        state.velocity vehicle.Cd vehicle.area / vehicle.mass * dt := rfl

lemma reentryStep_altitude_eq (state : ReentryState) (vehicle : Vehicle) (dt : ℝ) :
    (reentryStep state vehicle dt).altitude =
      state.altitude + state.velocity * Real.sin state.gamma * dt := rfl

def reentryStepDivisors (state : ReentryState) (vehicle : Vehicle) : List ℝ :=
  [H_SCALE,
   vehicle.mass * state.velocity,
   EARTH_RADIUS + state.altitude,
   state.velocity,
   (EARTH_RADIUS + state.altitude) * (EARTH_RADIUS + state.altitude),
   vehicle.mass]

end Reentry

/- ===================== Claims about the reentry module ===================== -/

/-- C4: `reentryStep` advances the state by exactly
`γ' = γ + γ̇·dt`, `V' = V − (drag/mass)·dt`,
`altitude' = altitude + V·sin(γ)·dt`, where the altitude update uses the
pre-update velocity and the pre-update flight-path angle. -/
theorem reentryStep_euler_form (s : Reentry.ReentryState) (v : Reentry.Vehicle)
    (dt : ℝ) :
    Reentry.reentryStep s v dt =
      { gamma := s.gamma +
          Reentry.flightPathAngleRate
            (Reentry.liftForce (Reentry.atmosphericDensity s.altitude)
              s.velocity v.Cl v.area)
            v.mass s.velocity s.altitude s.gamma v.bankAngle * dt,
        velocity := s.velocity -
          Reentry.dragForce (Reentry.atmosphericDensity s.altitude)
            s.velocity v.Cd v.area / v.mass * dt,
        altitude := s.altitude + s.velocity * Real.sin s.gamma * dt } := rfl

/-- C2 (counterexample): a state and a vehicle for which the drag force and
the lift force are both zero, yet `reentryStep` does NOT leave the
flight-path angle unchanged: the gravity term `(V/r − g/V)·cos γ` of the
rate equation survives.  Input: γ = 0, V = 1 m/s, altitude = 0, vehicle of
mass 1 with zero reference area, dt = 1. -/
theorem reentryStep_zero_forces_gamma_changes :
    Reentry.dragForce
        (Reentry.atmosphericDensity
          (Reentry.ReentryState.mk 0 1 0).altitude) 1 1 0 = 0 ∧
    Reentry.liftForce
        (Reentry.atmosphericDensity
          (Reentry.ReentryState.mk 0 1 0).altitude) 1 1 0 = 0 ∧
    (Reentry.reentryStep (Reentry.ReentryState.mk 0 1 0)
        (Reentry.Vehicle.mk 1 1 0 1 0) 1).gamma ≠
      (Reentry.ReentryState.mk 0 1 0).gamma := by
  refine ⟨by simp [Reentry.dragForce], by simp [Reentry.liftForce], ?_⟩
  simp only [Reentry.reentryStep, Reentry.flightPathAngleRate,
    Reentry.dragForce, Reentry.liftForce, Reentry.gravity,
    Reentry.atmosphericDensity, Reentry.EARTH_RADIUS, Reentry.MU,
    Reentry.RHO_0, Reentry.H_SCALE]
  rw [Real.cos_zero]
  norm_num

/-- C2 (amended): when the drag force and the lift force computed in a
`reentryStep` are both zero, the step leaves the velocity unchanged and
changes the altitude by exactly `V·sin(γ)·dt`; the flight-path angle is
NOT left unchanged in general — it still changes by the gravity term,
`γ' = γ + (V/r − g/V)·cos(γ)·dt`. -/
theorem reentryStep_zero_forces
    (s : Reentry.ReentryState) (v : Reentry.Vehicle) (dt : ℝ)
    (hd : Reentry.dragForce (Reentry.atmosphericDensity s.altitude)
      s.velocity v.Cd v.area = 0)
    (hl : Reentry.liftForce (Reentry.atmosphericDensity s.altitude)
      s.velocity v.Cl v.area = 0) :
    (Reentry.reentryStep s v dt).velocity = s.velocity ∧
    (Reentry.reentryStep s v dt).altitude =
      s.altitude + s.velocity * Real.sin s.gamma * dt ∧
    (Reentry.reentryStep s v dt).gamma =
      s.gamma + (s.velocity / (Reentry.EARTH_RADIUS + s.altitude) -
        Reentry.gravity s.altitude / s.velocity) * Real.cos s.gamma * dt := by
  refine ⟨?_, Reentry.reentryStep_altitude_eq s v dt, ?_⟩
  · rw [Reentry.reentryStep_velocity_eq, hd]
    simp
  · rw [Reentry.reentryStep_gamma_eq]
    unfold Reentry.flightPathAngleRate
    rw [hl]
    simp only [zero_div, zero_mul, zero_add]

/-- Witness for the amended C2: a vehicle with zero reference area at
γ = 0, V = 2 m/s, altitude = 0, dt = 2 satisfies both force hypotheses. -/
theorem reentryStep_zero_forces_witness :
    (Reentry.reentryStep (Reentry.ReentryState.mk 0 2 0)
        (Reentry.Vehicle.mk 1 1 0 1 0) 2).velocity =
      (Reentry.ReentryState.mk 0 2 0).velocity ∧
    (Reentry.reentryStep (Reentry.ReentryState.mk 0 2 0)
        (Reentry.Vehicle.mk 1 1 0 1 0) 2).altitude =
      (Reentry.ReentryState.mk 0 2 0).altitude +
        (Reentry.ReentryState.mk 0 2 0).velocity *
          Real.sin (Reentry.ReentryState.mk 0 2 0).gamma * 2 ∧
    (Reentry.reentryStep (Reentry.ReentryState.mk 0 2 0)
        (Reentry.Vehicle.mk 1 1 0 1 0) 2).gamma =
      (Reentry.ReentryState.mk 0 2 0).gamma +
        ((Reentry.ReentryState.mk 0 2 0).velocity /
            (Reentry.EARTH_RADIUS + (Reentry.ReentryState.mk 0 2 0).altitude) -
          Reentry.gravity (Reentry.ReentryState.mk 0 2 0).altitude /
            (Reentry.ReentryState.mk 0 2 0).velocity) *
          Real.cos (Reentry.ReentryState.mk 0 2 0).gamma * 2 :=
  reentryStep_zero_forces (Reentry.ReentryState.mk 0 2 0)
    (Reentry.Vehicle.mk 1 1 0 1 0) 2
    (by simp [Reentry.dragForce]) (by simp [Reentry.liftForce])

/-- C10 (counterexample): the preconditions `velocity ≠ 0` and `mass ≠ 0`
do not make every divisor of `reentryStep` nonzero: at altitude
`−EARTH_RADIUS` the radius `r = EARTH_RADIUS + altitude` is a divisor and
equals zero even though velocity = 1 and mass = 1. -/
theorem reentryStep_divisor_zero_at_center :
    (Reentry.ReentryState.mk 0 1 (-Reentry.EARTH_RADIUS)).velocity ≠ 0 ∧
    (Reentry.Vehicle.mk 1 1 1 1 0).mass ≠ 0 ∧
    (0:ℝ) ∈ Reentry.reentryStepDivisors
      (Reentry.ReentryState.mk 0 1 (-Reentry.EARTH_RADIUS))
      (Reentry.Vehicle.mk 1 1 1 1 0) := by
  refine ⟨by norm_num, by norm_num, ?_⟩
  simp [Reentry.reentryStepDivisors]

/-- C10 (amended): under the preconditions `velocity ≠ 0`, `mass ≠ 0` and
`altitude ≠ −EARTH_RADIUS`, every division performed by `reentryStep`
(including those inside `flightPathAngleRate`, `gravity` and
`atmosphericDensity`) has a nonzero divisor; and the code has no guard, so
an input with `velocity = 0` reaching a zero divisor is expressible at the
public interface. -/
theorem reentryStep_divisors_nonzero
    (s : Reentry.ReentryState) (v : Reentry.Vehicle)
    (hv : s.velocity ≠ 0) (hm : v.mass ≠ 0)
    (hr : s.altitude ≠ -Reentry.EARTH_RADIUS) :
    (0:ℝ) ∉ Reentry.reentryStepDivisors s v ∧
    (Reentry.ReentryState.mk 0 0 0).velocity = 0 ∧
    (0:ℝ) ∈ Reentry.reentryStepDivisors (Reentry.ReentryState.mk 0 0 0)
      (Reentry.Vehicle.mk 1 1 1 1 0) := by
  have hrne : Reentry.EARTH_RADIUS + s.altitude ≠ 0 := fun h => hr (by linarith)
  refine ⟨?_, rfl, ?_⟩
  · intro hmem
    simp only [Reentry.reentryStepDivisors, List.mem_cons,
      List.not_mem_nil, or_false] at hmem
    rcases hmem with h | h | h | h | h | h
    · rw [Reentry.H_SCALE] at h; norm_num at h
    · exact mul_ne_zero hm hv h.symm
    · exact hrne h.symm
    · exact hv h.symm
    · exact mul_ne_zero hrne hrne h.symm
    · exact hm h.symm
  · simp [Reentry.reentryStepDivisors]

/-- Witness for the amended C10 at velocity 1, mass 1, altitude 0. -/
theorem reentryStep_divisors_nonzero_witness :
    (0:ℝ) ∉ Reentry.reentryStepDivisors (Reentry.ReentryState.mk 0 1 0)
      (Reentry.Vehicle.mk 1 1 1 1 0) ∧
    (Reentry.ReentryState.mk 0 0 0).velocity = 0 ∧
    (0:ℝ) ∈ Reentry.reentryStepDivisors (Reentry.ReentryState.mk 0 0 0)
      (Reentry.Vehicle.mk 1 1 1 1 0) :=
  reentryStep_divisors_nonzero (Reentry.ReentryState.mk 0 1 0)
    (Reentry.Vehicle.mk 1 1 1 1 0) (by norm_num) (by norm_num)
    (by simp [Reentry.EARTH_RADIUS])

namespace Echoi

/-- Physical constant `MU = 3.986004418e14` (m³/s²) from echoi.js. -/
def MU : ℝ := 3.986004418e14

/-- Physical constant `R_E = 6378137` (m, Earth radius) from echoi.js. -/
def R_E : ℝ := 6378137

/-- Physical constant `J2 = 1.08263e-3` from echoi.js. -/
def J2 : ℝ := 1.08263e-3

/-- Conversion factor `DEG = 180 / Math.PI` from echoi.js. -/
noncomputable def DEG : ℝ := 180 / π

/-- Physical constant `RHO_0 = 1.225` (kg/m³, sea-level density) from
echoi.js. -/
def RHO_0 : ℝ := 1.225

/-- Physical constant `SCALE_HEIGHT = 8500` (m) from echoi.js. -/
def SCALE_HEIGHT : ℝ := 8500

/-- Embedding of the orbital-decay module's `atmosphericDensity(altitude) =
RHO_0 * Math.exp(-altitude / SCALE_HEIGHT)`. -/
noncomputable def atmosphericDensity (altitude : ℝ) : ℝ :=
  RHO_0 * Real.exp (-altitude / SCALE_HEIGHT)

/-- Embedding of `meanMotion(semiMajorAxis) =
Math.sqrt(MU / Math.pow(semiMajorAxis, 3))`. -/
noncomputable def meanMotion (semiMajorAxis : ℝ) : ℝ :=
  Real.sqrt (MU / semiMajorAxis ^ 3)

/-- Embedding of `orbitalPeriod(semiMajorAxis) = 2π / meanMotion(semiMajorAxis)`. -/
noncomputable def orbitalPeriod (semiMajorAxis : ℝ) : ℝ :=
  2 * π / meanMotion semiMajorAxis

/-- Embedding of `raanDriftRate(a, e, inclination) =
-1.5 * J2 * (R_E/a)² * (n cos i) / (1 − e·e)²`. -/
noncomputable def raanDriftRate (a e inclination : ℝ) : ℝ :=
  -1.5 * J2 * (R_E / a) ^ 2 * (meanMotion a * Real.cos inclination) /
    (1 - e * e) ^ 2

/-- Embedding of `perigeeDriftRate(a, e, inclination) =
0.75 * J2 * (R_E/a)² * (n (5 cos² i − 1)) / (1 − e·e)²`. -/
noncomputable def perigeeDriftRate (a e inclination : ℝ) : ℝ :=
  0.75 * J2 * (R_E / a) ^ 2 *
    (meanMotion a * (5 * Real.cos inclination ^ 2 - 1)) / (1 - e * e) ^ 2

/-- Embedding of `semiMajorAxisDecay(a, area, mass, dragCoeff) =
-dragCoeff * (area/mass) * atmosphericDensity(a − R_E) * Math.sqrt(MU * a)`. -/
noncomputable def semiMajorAxisDecay (a area mass dragCoeff : ℝ) : ℝ :=
  -dragCoeff * (area / mass) * atmosphericDensity (a - R_E) *
    Real.sqrt (MU * a)

/-- The configuration object destructured by `propagateOrbit`.  The source
defaults (`eccentricity = 0`, `dragCoeff = 2.2`, `revolutions = 1000`) are
supplied by callers here; the object has no field for the RAAN or the
argument of perigee — both accumulators are initialised to `0` inside
`propagateOrbit` and cannot be supplied by the caller. -/
structure OrbitConfig where
  semiMajorAxis : ℝ
  eccentricity : ℝ
  inclination : ℝ
  area : ℝ
  mass : ℝ
  dragCoeff : ℝ
  revolutions : ℕ

/-- One entry of the history list pushed per revolution:
`{orbit, semiMajorAxis, altitude, raanDeg, perigeeDeg}`. -/
structure Snapshot where
  orbit : ℕ
  semiMajorAxis : ℝ
  altitude : ℝ
  raanDeg : ℝ
  perigeeDeg : ℝ

/-- The mutable loop state of `propagateOrbit`: current semi-major axis
`a`, RAAN accumulator `Omega` (rad) and argument-of-perigee accumulator
`omega` (rad). -/
structure PropState where
  a : ℝ
  Omega : ℝ
  omega : ℝ

/-- Loop body of `propagateOrbit`: per revolution, compute the current
period and the three rates at the current elements, advance `a`, `Omega`
and `omega` by rate × period, and push a snapshot of the updated values. -/
noncomputable def propagateAux (e i area mass dragCoeff : ℝ) :
    ℕ → ℕ → PropState → List Snapshot
  | 0, _, _ => []
  | n + 1, idx, s =>
      let T := orbitalPeriod s.a
      let a' := s.a + semiMajorAxisDecay s.a area mass dragCoeff * T
      let Omega' := s.Omega + raanDriftRate s.a e i * T
      let omega' := s.omega + perigeeDriftRate s.a e i * T
      ⟨idx, a', a' - R_E, Omega' * DEG, omega' * DEG⟩ ::
        propagateAux e i area mass dragCoeff n (idx + 1) ⟨a', Omega', omega'⟩

/-- Embedding of `propagateOrbit(config)`: starts from the configured
semi-major axis with both angle accumulators at `0` rad and runs the loop
for the configured number of revolutions. -/
noncomputable def propagateOrbit (cfg : OrbitConfig) : List Snapshot :=
  propagateAux cfg.eccentricity cfg.inclination cfg.area cfg.mass
    cfg.dragCoeff cfg.revolutions 0 ⟨cfg.semiMajorAxis, 0, 0⟩

/- ===== helper lemmas about the propagator ===== -/

lemma semiMajorAxisDecay_area_zero (a mass dragCoeff : ℝ) :
    semiMajorAxisDecay a 0 mass dragCoeff = 0 := by
  unfold semiMajorAxisDecay
  rw [zero_div]
  ring

/-- Closed form of the drag-free run: with zero area the semi-major axis
never moves, so every revolution adds the same rate × period increment to
each angle accumulator. -/
lemma propagateAux_area_zero (e i mass dragCoeff : ℝ) (n : ℕ) :
    ∀ (idx : ℕ) (s : PropState),
      propagateAux e i 0 mass dragCoeff n idx s =
        (List.range n).map (fun k =>
          ⟨idx + k, s.a, s.a - R_E,
           (s.Omega + (k + 1 : ℕ) * (raanDriftRate s.a e i * orbitalPeriod s.a)) * DEG,
           (s.omega + (k + 1 : ℕ) * (perigeeDriftRate s.a e i * orbitalPeriod s.a)) * DEG⟩) := by
  induction n with
  | zero => intro idx s; simp [propagateAux]
  | succ n ih =>
      intro idx s
      rw [propagateAux]
      simp only [semiMajorAxisDecay_area_zero, zero_mul, add_zero]
      rw [ih (idx + 1) ⟨s.a, s.Omega + raanDriftRate s.a e i * orbitalPeriod s.a,
        s.omega + perigeeDriftRate s.a e i * orbitalPeriod s.a⟩]
      rw [List.range_succ_eq_map, List.map_cons, List.map_map]
      refine List.cons_eq_cons.mpr ⟨?_, ?_⟩
      · congr 1
        all_goals first | omega | (push_cast; ring)
      · apply List.map_congr_left
        intro k _
        simp only [Function.comp_apply]
        congr 1
        all_goals first | omega | (push_cast; ring)

end Echoi

/- ==================== Claims about the propagator module ==================== -/

/-- C7: in both atmosphere models (orbital decay: ρ₀ = 1.225, H = 8500;
reentry: ρ₀ = 1.225, H = 7200), density is strictly decreasing in
altitude — including for negative, sub-surface altitudes — and the density
at altitude 0 is exactly the model's sea-level constant. -/
theorem atmosphericDensity_strictly_decreasing (h1 h2 : ℝ) (hlt : h1 < h2) :
    Echoi.atmosphericDensity h2 < Echoi.atmosphericDensity h1 ∧
    Reentry.atmosphericDensity h2 < Reentry.atmosphericDensity h1 ∧
    Echoi.atmosphericDensity 0 = Echoi.RHO_0 ∧
    Reentry.atmosphericDensity 0 = Reentry.RHO_0 := by
  refine ⟨?_, ?_, ?_, ?_⟩
  · unfold Echoi.atmosphericDensity Echoi.RHO_0 Echoi.SCALE_HEIGHT
    have : -h2 / 8500 < -h1 / 8500 := by linarith
    have := Real.exp_lt_exp.mpr this
    nlinarith
  · unfold Reentry.atmosphericDensity Reentry.RHO_0 Reentry.H_SCALE
    have : -h2 / 7200 < -h1 / 7200 := by linarith
    have := Real.exp_lt_exp.mpr this
    nlinarith
  · unfold Echoi.atmosphericDensity Echoi.SCALE_HEIGHT
    rw [neg_zero, zero_div, Real.exp_zero, mul_one]
  · unfold Reentry.atmosphericDensity Reentry.H_SCALE
    rw [neg_zero, zero_div, Real.exp_zero, mul_one]

/-- Witness for C7 at the sub-surface pair `h1 = -1 < 0 = h2`. -/
theorem atmosphericDensity_strictly_decreasing_witness :
    Echoi.atmosphericDensity 0 < Echoi.atmosphericDensity (-1) ∧
    Reentry.atmosphericDensity 0 < Reentry.atmosphericDensity (-1) ∧
    Echoi.atmosphericDensity 0 = Echoi.RHO_0 ∧
    Reentry.atmosphericDensity 0 = Reentry.RHO_0 :=
  atmosphericDensity_strictly_decreasing (-1) 0 (by norm_num)

/-- C5: with zero cross-sectional area (no drag; the data model requires a
nonzero mass) every snapshot of `propagateOrbit` still carries the initial
semi-major axis, while the k-th snapshot's RAAN and argument-of-perigee
readings equal (k+1) revolutions of the corresponding J2 drift,
rate × period, converted to degrees. -/
theorem propagateOrbit_area_zero (cfg : Echoi.OrbitConfig)
    (hA : cfg.area = 0) (hmass : cfg.mass ≠ 0) (k : ℕ)
    (hk : k < cfg.revolutions) :
    (Echoi.propagateOrbit cfg).get? k = some
      ⟨k, cfg.semiMajorAxis, cfg.semiMajorAxis - Echoi.R_E,
       ((k + 1 : ℕ) * (Echoi.raanDriftRate cfg.semiMajorAxis
          cfg.eccentricity cfg.inclination *
          Echoi.orbitalPeriod cfg.semiMajorAxis)) * Echoi.DEG,
       ((k + 1 : ℕ) * (Echoi.perigeeDriftRate cfg.semiMajorAxis
          cfg.eccentricity cfg.inclination *
          Echoi.orbitalPeriod cfg.semiMajorAxis)) * Echoi.DEG⟩ := by
  unfold Echoi.propagateOrbit
  rw [hA, Echoi.propagateAux_area_zero]
  rw [List.get?_map, List.get?_range hk]
  simp

/-- Witness for C5: a drag-free configuration (area 0, mass 75, two
revolutions) evaluated at the first snapshot. -/
theorem propagateOrbit_area_zero_witness :
    (Echoi.propagateOrbit ⟨7978137, 0, 0.5, 0, 75, 2.2, 2⟩).get? 0 = some
      ⟨0, 7978137, 7978137 - Echoi.R_E,
       ((0 + 1 : ℕ) * (Echoi.raanDriftRate 7978137 0 0.5 *
          Echoi.orbitalPeriod 7978137)) * Echoi.DEG,
       ((0 + 1 : ℕ) * (Echoi.perigeeDriftRate 7978137 0 0.5 *
          Echoi.orbitalPeriod 7978137)) * Echoi.DEG⟩ :=
  propagateOrbit_area_zero ⟨7978137, 0, 0.5, 0, 75, 2.2, 2⟩ rfl
    (by norm_num) 0 (by norm_num)

/-- C9: the RAAN and argument-of-perigee accumulators of `propagateOrbit`
start at exactly 0 rad (the configuration has no field for them), so for
any configuration with at least one revolution the first snapshot reports
exactly one revolution's drift from zero: rate × period, in degrees, the
rates and the period being evaluated at the initial elements. -/
theorem propagateOrbit_first_snapshot (cfg : Echoi.OrbitConfig)
    (h : 0 < cfg.revolutions) :
    (Echoi.propagateOrbit cfg).get? 0 = some
      ⟨0,
       cfg.semiMajorAxis + Echoi.semiMajorAxisDecay cfg.semiMajorAxis
         cfg.area cfg.mass cfg.dragCoeff *
         Echoi.orbitalPeriod cfg.semiMajorAxis,
       cfg.semiMajorAxis + Echoi.semiMajorAxisDecay cfg.semiMajorAxis
         cfg.area cfg.mass cfg.dragCoeff *
         Echoi.orbitalPeriod cfg.semiMajorAxis - Echoi.R_E,
       (0 + Echoi.raanDriftRate cfg.semiMajorAxis cfg.eccentricity
          cfg.inclination * Echoi.orbitalPeriod cfg.semiMajorAxis) * Echoi.DEG,
       (0 + Echoi.perigeeDriftRate cfg.semiMajorAxis cfg.eccentricity
          cfg.inclination * Echoi.orbitalPeriod cfg.semiMajorAxis) * Echoi.DEG⟩ := by
  unfold Echoi.propagateOrbit
  obtain ⟨n, hn⟩ : ∃ n, cfg.revolutions = n + 1 :=
    ⟨cfg.revolutions - 1, (Nat.succ_pred_eq_of_pos h).symm⟩
  rw [hn, Echoi.propagateAux]
  rfl

/-- Witness for C9: the Echo I example configuration of the source
(a₀ = R_E + 1600000, i = 47°, area 400, mass 75, 500 revolutions). -/
theorem propagateOrbit_first_snapshot_witness :
    (Echoi.propagateOrbit ⟨Echoi.R_E + 1600000, 0, 47 * π / 180, 400, 75,
        2.2, 500⟩).get? 0 = some
      ⟨0,
       (Echoi.R_E + 1600000) + Echoi.semiMajorAxisDecay (Echoi.R_E + 1600000)
         400 75 2.2 * Echoi.orbitalPeriod (Echoi.R_E + 1600000),
       (Echoi.R_E + 1600000) + Echoi.semiMajorAxisDecay (Echoi.R_E + 1600000)
         400 75 2.2 * Echoi.orbitalPeriod (Echoi.R_E + 1600000) - Echoi.R_E,
       (0 + Echoi.raanDriftRate (Echoi.R_E + 1600000) 0 (47 * π / 180) *
          Echoi.orbitalPeriod (Echoi.R_E + 1600000)) * Echoi.DEG,
       (0 + Echoi.perigeeDriftRate (Echoi.R_E + 1600000) 0 (47 * π / 180) *
          Echoi.orbitalPeriod (Echoi.R_E + 1600000)) * Echoi.DEG⟩ :=
  propagateOrbit_first_snapshot
    ⟨Echoi.R_E + 1600000, 0, 47 * π / 180, 400, 75, 2.2, 500⟩ (by norm_num)

namespace Echoi

lemma MU_pos : (0:ℝ) < MU := by norm_num [MU]

lemma DEG_pos : (0:ℝ) < DEG := div_pos (by norm_num) pi_pos

lemma meanMotion_pos {a : ℝ} (ha : 0 < a) : 0 < meanMotion a :=
  Real.sqrt_pos.mpr (div_pos MU_pos (pow_pos ha 3))

lemma orbitalPeriod_pos {a : ℝ} (ha : 0 < a) : 0 < orbitalPeriod a :=
  div_pos (by positivity) (meanMotion_pos ha)

lemma orbitalPeriod_eq_zero_of_neg {a : ℝ} (ha : a < 0) : orbitalPeriod a = 0 := by
  unfold orbitalPeriod meanMotion
  rw [Real.sqrt_eq_zero_of_nonpos, div_zero]
  exact le_of_lt (div_neg_of_pos_of_neg MU_pos (Odd.pow_neg ⟨1, by norm_num⟩ ha))

lemma raanDriftRate_neg {a e i : ℝ} (ha : 0 < a) (he : e * e ≠ 1)
    (hi : 0 < Real.cos i) : raanDriftRate a e i < 0 := by
  unfold raanDriftRate
  apply div_neg_of_neg_of_pos
  · have h1 : (0:ℝ) < 1.5 * J2 * (R_E / a) ^ 2 *
        (meanMotion a * Real.cos i) := by
      have hR : (0:ℝ) < R_E := by norm_num [R_E]
      have := meanMotion_pos ha
      have := pow_pos (div_pos hR ha) 2
      have : (0:ℝ) < J2 := by norm_num [J2]
      positivity
    nlinarith
  · have : (1:ℝ) - e * e ≠ 0 := fun h => he (by linarith)
    positivity

lemma raanDriftRate_pos {a e i : ℝ} (ha : 0 < a) (he : e * e ≠ 1)
    (hi : Real.cos i < 0) : 0 < raanDriftRate a e i := by
  unfold raanDriftRate
  apply div_pos
  · have h1 : (0:ℝ) < 1.5 * J2 * (R_E / a) ^ 2 *
        (meanMotion a * -Real.cos i) := by
      have hR : (0:ℝ) < R_E := by norm_num [R_E]
      have := meanMotion_pos ha
      have := pow_pos (div_pos hR ha) 2
      have : (0:ℝ) < J2 := by norm_num [J2]
      have : (0:ℝ) < -Real.cos i := by linarith
      positivity
    nlinarith
  · have : (1:ℝ) - e * e ≠ 0 := fun h => he (by linarith)
    positivity

/-- Unfolding lemma for one pass of the `propagateOrbit` loop. -/
lemma propagateAux_succ (e i area mass dragCoeff : ℝ) (n idx : ℕ)
    (s : PropState) :
    propagateAux e i area mass dragCoeff (n + 1) idx s =
      ⟨idx,
       s.a + semiMajorAxisDecay s.a area mass dragCoeff * orbitalPeriod s.a,
       s.a + semiMajorAxisDecay s.a area mass dragCoeff * orbitalPeriod s.a - R_E,
       (s.Omega + raanDriftRate s.a e i * orbitalPeriod s.a) * DEG,
       (s.omega + perigeeDriftRate s.a e i * orbitalPeriod s.a) * DEG⟩ ::
      propagateAux e i area mass dragCoeff n (idx + 1)
        ⟨s.a + semiMajorAxisDecay s.a area mass dragCoeff * orbitalPeriod s.a,
         s.Omega + raanDriftRate s.a e i * orbitalPeriod s.a,
         s.omega + perigeeDriftRate s.a e i * orbitalPeriod s.a⟩ := rfl

/-- When every drift increment pushes the RAAN accumulator strictly down
(rate negative at every positive semi-major axis) and every intermediate
semi-major axis stays positive, the reported RAAN sequence descends
strictly below any upper bound `s.Omega * DEG`. -/
lemma propagateAux_raan_chain_lt (e i area mass dragCoeff : ℝ)
    (hrate : ∀ a : ℝ, 0 < a → raanDriftRate a e i < 0) :
    ∀ (n idx : ℕ) (s : PropState), 0 < s.a →
      (∀ snap ∈ propagateAux e i area mass dragCoeff n idx s,
        0 < snap.semiMajorAxis) →
      List.Chain (fun x y => y < x) (s.Omega * DEG)
        ((propagateAux e i area mass dragCoeff n idx s).map Snapshot.raanDeg) := by
  intro n
  induction n with
  | zero => intro idx s _ _; exact List.Chain.nil
  | succ n ih =>
      intro idx s hs hmem
      rw [propagateAux_succ, List.map_cons]
      have hT := orbitalPeriod_pos hs
      have hrt := hrate s.a hs
      have hstep : raanDriftRate s.a e i * orbitalPeriod s.a < 0 :=
        mul_neg_of_neg_of_pos hrt hT
      have hhead : (s.Omega + raanDriftRate s.a e i * orbitalPeriod s.a) * DEG <
          s.Omega * DEG :=
        mul_lt_mul_of_pos_right (by linarith) DEG_pos
      refine List.Chain.cons hhead ?_
      have hsa' : 0 < (PropState.mk
          (s.a + semiMajorAxisDecay s.a area mass dragCoeff * orbitalPeriod s.a)
          (s.Omega + raanDriftRate s.a e i * orbitalPeriod s.a)
          (s.omega + perigeeDriftRate s.a e i * orbitalPeriod s.a)).a := by
        have := hmem _ (List.mem_cons_self _ _)
        exact this
      exact ih (idx + 1) _ hsa'
        (fun snap h => hmem snap (List.mem_cons_of_mem _ h))

/-- Mirror image of `propagateAux_raan_chain_lt` for a positive drift
rate: the reported RAAN sequence ascends strictly. -/
lemma propagateAux_raan_chain_gt (e i area mass dragCoeff : ℝ)
    (hrate : ∀ a : ℝ, 0 < a → 0 < raanDriftRate a e i) :
    ∀ (n idx : ℕ) (s : PropState), 0 < s.a →
      (∀ snap ∈ propagateAux e i area mass dragCoeff n idx s,
        0 < snap.semiMajorAxis) →
      List.Chain (fun x y => x < y) (s.Omega * DEG)
        ((propagateAux e i area mass dragCoeff n idx s).map Snapshot.raanDeg) := by
  intro n
  induction n with
  | zero => intro idx s _ _; exact List.Chain.nil
  | succ n ih =>
      intro idx s hs hmem
      rw [propagateAux_succ, List.map_cons]
      have hT := orbitalPeriod_pos hs
      have hrt := hrate s.a hs
      have hstep : 0 < raanDriftRate s.a e i * orbitalPeriod s.a :=
        mul_pos hrt hT
      have hhead : s.Omega * DEG <
          (s.Omega + raanDriftRate s.a e i * orbitalPeriod s.a) * DEG :=
        mul_lt_mul_of_pos_right (by linarith) DEG_pos
      refine List.Chain.cons hhead ?_
      have hsa' : 0 < (PropState.mk
          (s.a + semiMajorAxisDecay s.a area mass dragCoeff * orbitalPeriod s.a)
          (s.Omega + raanDriftRate s.a e i * orbitalPeriod s.a)
          (s.omega + perigeeDriftRate s.a e i * orbitalPeriod s.a)).a := by
        have := hmem _ (List.mem_cons_self _ _)
        exact this
      exact ih (idx + 1) _ hsa'
        (fun snap h => hmem snap (List.mem_cons_of_mem _ h))

lemma chain'_of_chain {r : ℝ → ℝ → Prop} {x : ℝ} {l : List ℝ}
    (h : List.Chain r x l) : List.Chain' r l := by
  cases l with
  | nil => exact List.chain'_nil
  | cons y t => exact (List.chain_cons.mp h).2

end Echoi

/-- C6 (amended): provided the initial semi-major axis is positive, every
snapshot's semi-major axis stays positive throughout the run, and the
eccentricity satisfies `e·e ≠ 1` (so the `(1 − e·e)²` denominator of the
drift rate is nonzero), an inclination in the standard range `[0, π]`
that is strictly below 90° yields a strictly decreasing RAAN snapshot
sequence (nodal regression), and one strictly above 90° yields a strictly
increasing sequence (nodal advance). -/
theorem propagateOrbit_raan_monotone (cfg : Echoi.OrbitConfig)
    (ha0 : 0 < cfg.semiMajorAxis)
    (hrun : ∀ snap ∈ Echoi.propagateOrbit cfg, 0 < snap.semiMajorAxis)
    (he : cfg.eccentricity * cfg.eccentricity ≠ 1) :
    (0 ≤ cfg.inclination → cfg.inclination < π / 2 →
      List.Chain' (fun x y => y < x)
        ((Echoi.propagateOrbit cfg).map Echoi.Snapshot.raanDeg)) ∧
    (π / 2 < cfg.inclination → cfg.inclination ≤ π →
      List.Chain' (fun x y => x < y)
        ((Echoi.propagateOrbit cfg).map Echoi.Snapshot.raanDeg)) := by
  constructor
  · intro hi0 hi1
    have hcos : 0 < Real.cos cfg.inclination := by
      apply Real.cos_pos_of_mem_Ioo
      constructor
      · linarith [pi_pos]
      · exact hi1
    have hchain := Echoi.propagateAux_raan_chain_lt cfg.eccentricity
      cfg.inclination cfg.area cfg.mass cfg.dragCoeff
      (fun a ha => Echoi.raanDriftRate_neg ha he hcos)
      cfg.revolutions 0 ⟨cfg.semiMajorAxis, 0, 0⟩ ha0 hrun
    exact Echoi.chain'_of_chain hchain
  · intro hi0 hi1
    have hcos : Real.cos cfg.inclination < 0 := by
      apply Real.cos_neg_of_pi_div_two_lt_of_lt hi0
      linarith [pi_pos]
    have hchain := Echoi.propagateAux_raan_chain_gt cfg.eccentricity
      cfg.inclination cfg.area cfg.mass cfg.dragCoeff
      (fun a ha => Echoi.raanDriftRate_pos ha he hcos)
      cfg.revolutions 0 ⟨cfg.semiMajorAxis, 0, 0⟩ ha0 hrun
    exact Echoi.chain'_of_chain hchain

/-- Witness for the amended C6: a drag-free two-revolution run at
a₀ = 7000000 m, e = 0, equatorial inclination 0 < π/2 satisfies every
hypothesis, and its RAAN readings descend strictly. -/
theorem propagateOrbit_raan_monotone_witness :
    List.Chain' (fun x y => y < x)
      ((Echoi.propagateOrbit ⟨7000000, 0, 0, 0, 1, 2.2, 2⟩).map
        Echoi.Snapshot.raanDeg) :=
  (propagateOrbit_raan_monotone ⟨7000000, 0, 0, 0, 1, 2.2, 2⟩
    (by norm_num)
    (by
      intro snap h
      rw [show Echoi.propagateOrbit ⟨7000000, 0, 0, 0, 1, 2.2, 2⟩ =
          Echoi.propagateAux 0 0 0 1 2.2 2 0 ⟨7000000, 0, 0⟩ from rfl,
        Echoi.propagateAux_area_zero] at h
      simp only [List.mem_map, List.mem_range] at h
      obtain ⟨k, _, hk⟩ := h
      rw [← hk]
      norm_num)
    (by norm_num)).1 (le_refl 0) (by linarith [pi_pos])

namespace Echoi

/-- One drag revolution from a positive semi-major axis `a` with unit
area-to-mass ratio and `dragCoeff = 2.2` lands strictly below zero as soon
as the decrement `2.2 · ρ(a − R_E) · 2π · a²` exceeds `a`. -/
lemma a1_neg_of (a : ℝ) (ha : 0 < a)
    (hbig : 1 < 2.2 * (RHO_0 * Real.exp (-(a - R_E) / SCALE_HEIGHT)) *
      (2 * π) * a) :
    a + semiMajorAxisDecay a 1 1 2.2 * orbitalPeriod a < 0 := by
  have hMU' : MU ≠ 0 := ne_of_gt MU_pos
  have ha' : a ≠ 0 := ne_of_gt ha
  have h1 : Real.sqrt (MU * a) / Real.sqrt (MU / a ^ 3) = a ^ 2 := by
    rw [← Real.sqrt_div (le_of_lt (mul_pos MU_pos ha))]
    have hX : MU * a / (MU / a ^ 3) = (a ^ 2) ^ 2 := by
      field_simp
      ring
    rw [hX, Real.sqrt_sq (sq_nonneg a)]
  unfold semiMajorAxisDecay orbitalPeriod meanMotion atmosphericDensity
  have hsplit :
      -2.2 * ((1:ℝ) / 1) * (RHO_0 * Real.exp (-(a - R_E) / SCALE_HEIGHT)) *
          Real.sqrt (MU * a) * (2 * π / Real.sqrt (MU / a ^ 3)) =
        -(2.2 * (RHO_0 * Real.exp (-(a - R_E) / SCALE_HEIGHT)) * (2 * π) *
          (Real.sqrt (MU * a) / Real.sqrt (MU / a ^ 3))) := by
    ring
  rw [hsplit, h1]
  nlinarith [mul_pos ha (sub_pos.mpr hbig)]

/-- At the concrete initial semi-major axis `R_E + 8500` (one scale height
of altitude, where ρ = 1.225·e⁻¹), one revolution of drag with area 1 m²,
mass 1 kg, dragCoeff 2.2 drives the semi-major axis strictly negative. -/
lemma cex_a1_neg :
    R_E + 8500 + semiMajorAxisDecay (R_E + 8500) 1 1 2.2 *
      orbitalPeriod (R_E + 8500) < 0 := by
  apply a1_neg_of _ (by norm_num [R_E])
  rw [show -(R_E + 8500 - R_E) / SCALE_HEIGHT = (-1 : ℝ) by
    norm_num [R_E, SCALE_HEIGHT]]
  have hE : (1:ℝ) / 3 < Real.exp (-1) := by
    rw [Real.exp_neg]
    have h3 : Real.exp 1 < 3 := lt_trans Real.exp_one_lt_d9 (by norm_num)
    have h4 := inv_strictAnti₀ (Real.exp_pos 1) h3
    calc (1:ℝ) / 3 = 3⁻¹ := by norm_num
    _ < (Real.exp 1)⁻¹ := h4
  have hEP : (1:ℝ) < Real.exp (-1) * π := by
    have h5 := mul_lt_mul'' hE pi_gt_three (by norm_num)
      (by norm_num : (0:ℝ) ≤ 3)
    linarith
  rw [show RHO_0 = (1.225:ℝ) from rfl, show R_E = (6378137:ℝ) from rfl]
  nlinarith [hEP]

end Echoi

/-- C6 (counterexample): the claim "inclination < 90° yields strictly
decreasing RAAN across revolutions" fails on a legitimate configuration
(equatorial inclination 0, e = 0, area 1 m², mass 1 kg, two revolutions,
initial altitude 8500 m): drag drives the semi-major axis negative after
the first revolution, the mean motion `√(μ/a³)` of the now-negative `a`
degenerates, the second period is no longer positive, and the second RAAN
reading repeats the first instead of decreasing.  (In JavaScript the same
inputs make `Math.sqrt` return `NaN`, so the comparison fails there too.) -/
theorem propagateOrbit_raan_not_strictly_decreasing :
    (⟨Echoi.R_E + 8500, 0, 0, 1, 1, 2.2, 2⟩ : Echoi.OrbitConfig).inclination <
      π / 2 ∧
    ¬ List.Chain' (fun x y => y < x)
      ((Echoi.propagateOrbit ⟨Echoi.R_E + 8500, 0, 0, 1, 1, 2.2, 2⟩).map
        Echoi.Snapshot.raanDeg) := by
  constructor
  · show (0:ℝ) < π / 2
    linarith [pi_pos]
  · intro hchain
    have hval : (Echoi.propagateOrbit
          ⟨Echoi.R_E + 8500, 0, 0, 1, 1, 2.2, 2⟩).map Echoi.Snapshot.raanDeg =
        [(0 + Echoi.raanDriftRate (Echoi.R_E + 8500) 0 0 *
            Echoi.orbitalPeriod (Echoi.R_E + 8500)) * Echoi.DEG,
         (0 + Echoi.raanDriftRate (Echoi.R_E + 8500) 0 0 *
            Echoi.orbitalPeriod (Echoi.R_E + 8500) +
          Echoi.raanDriftRate (Echoi.R_E + 8500 +
              Echoi.semiMajorAxisDecay (Echoi.R_E + 8500) 1 1 2.2 *
              Echoi.orbitalPeriod (Echoi.R_E + 8500)) 0 0 *
            Echoi.orbitalPeriod (Echoi.R_E + 8500 +
              Echoi.semiMajorAxisDecay (Echoi.R_E + 8500) 1 1 2.2 *
              Echoi.orbitalPeriod (Echoi.R_E + 8500))) * Echoi.DEG] := rfl
    rw [hval, Echoi.orbitalPeriod_eq_zero_of_neg Echoi.cex_a1_neg,
      mul_zero, add_zero] at hchain
    exact lt_irrefl _ (List.chain'_cons.mp hchain).1
